import Mathlib

/-!
Verification of the LabPulse dashboard core: period resolution, alert
evaluation, completeness classification, office ranking and compliance
streaks. Each definition is a shallow embedding of the corresponding
TypeScript function; JS numbers are modelled as rationals (ℚ) for metric
values and integers (ℤ) for years and months, optional values as Option,
and JS strings as Lean strings.
-/

namespace LabPulse

/-- Embeds the OfficeSummary interface of src/types/Dashboard.ts.
Optional TS fields (marked with a question mark) become Option. -/
structure OfficeSummary where
  office_id : ℤ
  office_name : String
  model : String
  dfo : Option String
  latest_month : Option ℤ
  latest_year : Option ℤ
  revenue : Option ℚ
  lab_exp_percent : Option ℚ
  personnel_percent : Option ℚ
  overtime_percent : Option ℚ
  backlog_count : Option ℚ
  has_financial : Bool
  has_operations : Bool
  has_volume : Bool
  has_notes : Bool
deriving Repr, DecidableEq

/-- Embeds AlertSeverity of src/types/Dashboard.ts. -/
inductive AlertSeverity where
  | info
  | warning
  | critical
deriving Repr, DecidableEq

/-- Embeds the Alert interface of src/types/Dashboard.ts. -/
structure Alert where
  severity : AlertSeverity
  message : String
deriving Repr, DecidableEq

/-- Embeds getDataStatus of src/types/Dashboard.ts: counts the three
primary presence flags with filter(Boolean).length and classifies.
The TS string-literal result type is kept as a Lean String. -/
def getDataStatus (office : OfficeSummary) : String :=
  let dataCount :=
    [office.has_financial, office.has_operations, office.has_volume].countP (fun b => b)
  if dataCount = 3 then "complete"
  else if dataCount > 0 then "partial"
  else "none"

/-- Models Number.prototype.toFixed(1) on a nonnegative rational q = a/b:
round to one decimal digit (n = ⌊q·10 + 1/2⌋, computed on the numerator
and denominator as ⌊(20a + b) / 2b⌋) and print as <int>.<digit>. -/
def toFixed1 (q : ℚ) : String :=
  let n : ℤ := Int.fdiv (20 * q.num + q.den) (2 * q.den)
  toString (n / 10) ++ "." ++ toString (n % 10)

/-- Models the default JS number-to-string conversion used by template
literals for the backlog count: integers print with no decimal point. -/
def jsNumToString (q : ℚ) : String :=
  if q.den = 1 then toString q.num else toString q

/-- Embeds generateAlerts of src/types/Dashboard.ts. The mutable alerts
array and its push calls become let-rebindings appending to a list; the
undefined checks on the optional metric fields become Option matches. -/
def generateAlerts (office : OfficeSummary) : List Alert :=
  if !office.has_financial && !office.has_operations && !office.has_volume then
    [{ severity := .info, message := "No data entered for this month" }]
  else
    let alerts : List Alert := []
    let alerts :=
      match office.lab_exp_percent with
      | some v =>
        if v > 25 then
          alerts ++ [{ severity := .critical, message := "Lab expenses at " ++ toFixed1 v ++ "% (>25% critical)" }]
        else if v > 20 then
          alerts ++ [{ severity := .warning, message := "Lab expenses at " ++ toFixed1 v ++ "% (>20% warning)" }]
        else alerts
      | none => alerts
    let alerts :=
      match office.personnel_percent with
      | some v =>
        if v > 20 then
          alerts ++ [{ severity := .critical, message := "Personnel at " ++ toFixed1 v ++ "% (>20% critical)" }]
        else if v > 15 then
          alerts ++ [{ severity := .warning, message := "Personnel at " ++ toFixed1 v ++ "% (>15% warning)" }]
        else alerts
      | none => alerts
    let alerts :=
      match office.backlog_count with
      | some v =>
        if v > 100 then
          alerts ++ [{ severity := .critical, message := "Backlog: " ++ jsNumToString v ++ " cases (>100 critical)" }]
        else if v > 50 then
          alerts ++ [{ severity := .warning, message := "Backlog: " ++ jsNumToString v ++ " cases (>50 warning)" }]
        else alerts
      | none => alerts
    alerts

/-- Claim-side reading of one row of the alert rule table: no alert when
the value is absent, one critical alert when the value strictly exceeds
the critical threshold, one warning alert when it strictly exceeds the
warning threshold but not the critical one. -/
def ruleAlerts (warnThreshold critThreshold : ℚ) (mkWarn mkCrit : ℚ → Alert)
    (value : Option ℚ) : List Alert :=
  match value with
  | none => []
  | some v =>
    if critThreshold < v then [mkCrit v]
    else if warnThreshold < v then [mkWarn v]
    else []

/-- The critical-severity lab-expense alert of generateAlerts. -/
def labCritAlert (v : ℚ) : Alert :=
  { severity := .critical, message := "Lab expenses at " ++ toFixed1 v ++ "% (>25% critical)" }

/-- The warning-severity lab-expense alert of generateAlerts. -/
def labWarnAlert (v : ℚ) : Alert :=
  { severity := .warning, message := "Lab expenses at " ++ toFixed1 v ++ "% (>20% warning)" }

/-- The critical-severity personnel alert of generateAlerts. -/
def persCritAlert (v : ℚ) : Alert :=
  { severity := .critical, message := "Personnel at " ++ toFixed1 v ++ "% (>20% critical)" }

/-- The warning-severity personnel alert of generateAlerts. -/
def persWarnAlert (v : ℚ) : Alert :=
  { severity := .warning, message := "Personnel at " ++ toFixed1 v ++ "% (>15% warning)" }

/-- The critical-severity backlog alert of generateAlerts. -/
def backlogCritAlert (v : ℚ) : Alert :=
  { severity := .critical, message := "Backlog: " ++ jsNumToString v ++ " cases (>100 critical)" }

/-- The warning-severity backlog alert of generateAlerts. -/
def backlogWarnAlert (v : ℚ) : Alert :=
  { severity := .warning, message := "Backlog: " ++ jsNumToString v ++ " cases (>50 warning)" }

/-- C2: when all three presence flags are false, generateAlerts returns
exactly the single info-severity no-data alert, regardless of which
metric values are present on the summary. -/
theorem generateAlerts_all_flags_false (o : OfficeSummary)
    (hf : o.has_financial = false) (ho : o.has_operations = false)
    (hv : o.has_volume = false) :
    generateAlerts o = [{ severity := .info, message := "No data entered for this month" }] := by
  simp [generateAlerts, hf, ho, hv]

/-- A summary with all presence flags false but a present (and
threshold-violating) lab-expense value, exercising the short-circuit. -/
def noDataOffice : OfficeSummary :=
  { office_id := 7, office_name := "Albertville, AL", model := "Core", dfo := none
    latest_month := none, latest_year := none, revenue := none
    lab_exp_percent := some 26, personnel_percent := some 99
    overtime_percent := none, backlog_count := some 500
    has_financial := false, has_operations := false, has_volume := false
    has_notes := true }

/-- Witness for C2: the concrete summary noDataOffice has all flags false
and yields exactly the single info alert. -/
theorem generateAlerts_all_flags_false_witness :
    noDataOffice.has_financial = false ∧ noDataOffice.has_operations = false ∧
      noDataOffice.has_volume = false ∧
      generateAlerts noDataOffice =
        [{ severity := .info, message := "No data entered for this month" }] :=
  ⟨rfl, rfl, rfl, generateAlerts_all_flags_false noDataOffice rfl rfl rfl⟩

/-- C10: getDataStatus returns complete exactly when all three primary
flags are true, partial exactly when one or two are true, none exactly
when all are false, and it never depends on has_notes. -/
theorem getDataStatus_cases (o : OfficeSummary) :
    (getDataStatus o = "complete" ↔
        o.has_financial = true ∧ o.has_operations = true ∧ o.has_volume = true) ∧
    (getDataStatus o = "partial" ↔
        ((o.has_financial = true ∨ o.has_operations = true ∨ o.has_volume = true) ∧
          ¬(o.has_financial = true ∧ o.has_operations = true ∧ o.has_volume = true))) ∧
    (getDataStatus o = "none" ↔
        o.has_financial = false ∧ o.has_operations = false ∧ o.has_volume = false) ∧
    (∀ b : Bool, getDataStatus { o with has_notes := b } = getDataStatus o) := by
  obtain ⟨_, _, _, _, _, _, _, _, _, _, _, f, op, vol, nt⟩ := o
  cases f <;> cases op <;> cases vol <;>
    refine ⟨?_, ?_, ?_, fun b => rfl⟩ <;> simp [getDataStatus]

/-- A threshold rule never contributes more than one alert: critical and
warning are mutually exclusive per metric. -/
theorem ruleAlerts_length_le_one (w c : ℚ) (mw mc : ℚ → Alert) (v : Option ℚ) :
    (ruleAlerts w c mw mc v).length ≤ 1 := by
  rcases v with _ | x
  · simp [ruleAlerts]
  · simp only [ruleAlerts]
    split_ifs <;> simp

/-- C1: when at least one presence flag is set, generateAlerts is exactly
the concatenation, in the fixed order lab-expense, personnel, backlog, of
the three threshold rules of the rule table (warning/critical thresholds
20/25, 15/20 and 50/100), each rule contributing no alert when its value
is absent, one critical alert above the critical threshold, one warning
alert above the warning threshold but not the critical one — and each
rule contributes at most one alert, never both severities. -/
theorem generateAlerts_rule_table (o : OfficeSummary)
    (h : o.has_financial = true ∨ o.has_operations = true ∨ o.has_volume = true) :
    generateAlerts o =
        ruleAlerts 20 25 labWarnAlert labCritAlert o.lab_exp_percent ++
          ruleAlerts 15 20 persWarnAlert persCritAlert o.personnel_percent ++
          ruleAlerts 50 100 backlogWarnAlert backlogCritAlert o.backlog_count ∧
      (ruleAlerts 20 25 labWarnAlert labCritAlert o.lab_exp_percent).length ≤ 1 ∧
      (ruleAlerts 15 20 persWarnAlert persCritAlert o.personnel_percent).length ≤ 1 ∧
      (ruleAlerts 50 100 backlogWarnAlert backlogCritAlert o.backlog_count).length ≤ 1 := by
  have hflag : (!o.has_financial && !o.has_operations && !o.has_volume) = false := by
    rcases h with h | h | h <;> simp [h]
  constructor
  · rw [generateAlerts, hflag]
    simp only [Bool.false_eq_true, if_false]
    rcases o.lab_exp_percent with _ | lv <;>
      rcases o.personnel_percent with _ | pv <;>
        rcases o.backlog_count with _ | bv <;>
          simp only [ruleAlerts, labWarnAlert, labCritAlert, persWarnAlert, persCritAlert,
            backlogWarnAlert, backlogCritAlert, gt_iff_lt, List.nil_append, List.append_nil] <;>
          split_ifs <;> simp_all
  · exact ⟨ruleAlerts_length_le_one _ _ _ _ _, ruleAlerts_length_le_one _ _ _ _ _,
      ruleAlerts_length_le_one _ _ _ _ _⟩

/-- Scenario 1 of the spec: lab expense percent 26, personnel percent 10,
backlog absent, financial data present. -/
def scenarioOneOffice : OfficeSummary :=
  { office_id := 12, office_name := "Boaz, AL", model := "Core", dfo := some "North"
    latest_month := some 9, latest_year := some 2026, revenue := some 120000
    lab_exp_percent := some 26, personnel_percent := some 10
    overtime_percent := none, backlog_count := none
    has_financial := true, has_operations := false, has_volume := false
    has_notes := false }

/-- Witness for C1: on the scenario-1 summary (lab 26, personnel 10,
backlog absent, has_financial set) the rule table yields exactly the
single critical lab-expense alert with the exact message of the spec. -/
theorem generateAlerts_rule_table_witness :
    (scenarioOneOffice.has_financial = true ∨ scenarioOneOffice.has_operations = true ∨
        scenarioOneOffice.has_volume = true) ∧
      generateAlerts scenarioOneOffice =
        [{ severity := .critical, message := "Lab expenses at 26.0% (>25% critical)" }] := by
  refine ⟨Or.inl rfl, ?_⟩
  rw [(generateAlerts_rule_table scenarioOneOffice (Or.inl rfl)).1]
  decide

/-- Embeds the TimePeriod union type of Overview.tsx and Rankings.tsx. -/
inductive TimePeriod where
  | current_month
  | last_month
  | qtd
  | ytd
  | custom
deriving Repr, DecidableEq

/-- Embeds the DateRange interface of Overview.tsx and Rankings.tsx. -/
structure DateRange where
  startYear : ℤ
  startMonth : ℤ
  endYear : ℤ
  endMonth : ℤ
deriving Repr, DecidableEq

/-- Models Math.ceil(m / 3) on an integer month as exact integer
arithmetic: the ceiling of m/3 is the negated floor division of -m by 3. -/
def ceilDiv3 (m : ℤ) : ℤ := -((-m).fdiv 3)

/-- Models Math.floor(m / 3) on an integer: floor division by 3. -/
def floorDiv3 (m : ℤ) : ℤ := m.fdiv 3

/-- Embeds getDateRange of src/pages/Overview.tsx, with the ambient
selectedPeriod, current date and custom-picker state passed explicitly. -/
def Overview.getDateRange (selectedPeriod : TimePeriod)
    (currentYear currentMonth customYear customMonth : ℤ) : DateRange :=
  match selectedPeriod with
  | .current_month =>
    { startYear := currentYear, startMonth := currentMonth
      endYear := currentYear, endMonth := currentMonth }
  | .last_month =>
    let lastMonth := if currentMonth = 1 then 12 else currentMonth - 1
    let lastMonthYear := if currentMonth = 1 then currentYear - 1 else currentYear
    { startYear := lastMonthYear, startMonth := lastMonth
      endYear := lastMonthYear, endMonth := lastMonth }
  | .qtd =>
    let currentQuarter := ceilDiv3 currentMonth
    let quarterStartMonth := (currentQuarter - 1) * 3 + 1
    { startYear := currentYear, startMonth := quarterStartMonth
      endYear := currentYear, endMonth := currentMonth }
  | .ytd =>
    { startYear := currentYear, startMonth := 1
      endYear := currentYear, endMonth := currentMonth }
  | .custom =>
    { startYear := customYear, startMonth := customMonth
      endYear := customYear, endMonth := customMonth }

/-- Embeds getDateRange of src/pages/Rankings.tsx. Its switch has no
custom case, so the custom period falls through to the default branch,
which returns the current month. -/
def Rankings.getDateRange (selectedPeriod : TimePeriod)
    (currentYear currentMonth : ℤ) : DateRange :=
  match selectedPeriod with
  | .current_month =>
    { startYear := currentYear, startMonth := currentMonth
      endYear := currentYear, endMonth := currentMonth }
  | .last_month =>
    let lastMonth := if currentMonth = 1 then 12 else currentMonth - 1
    let lastMonthYear := if currentMonth = 1 then currentYear - 1 else currentYear
    { startYear := lastMonthYear, startMonth := lastMonth
      endYear := lastMonthYear, endMonth := lastMonth }
  | .qtd =>
    let currentQuarter := ceilDiv3 currentMonth
    let quarterStartMonth := (currentQuarter - 1) * 3 + 1
    { startYear := currentYear, startMonth := quarterStartMonth
      endYear := currentYear, endMonth := currentMonth }
  | .ytd =>
    { startYear := currentYear, startMonth := 1
      endYear := currentYear, endMonth := currentMonth }
  | .custom =>
    { startYear := currentYear, startMonth := currentMonth
      endYear := currentYear, endMonth := currentMonth }

/-- The monthNames array shared by both label functions. -/
def monthNames : List String :=
  ["Jan", "Feb", "Mar", "Apr", "May", "Jun", "Jul", "Aug", "Sep", "Oct", "Nov", "Dec"]

/-- Models the JS array access monthNames[i]: an out-of-bounds index
yields the undefined value, which prints as the string undefined. -/
def monthName (i : ℤ) : String :=
  if i < 0 then "undefined" else monthNames.getD i.toNat "undefined"

/-- Embeds getPeriodLabel of src/pages/Overview.tsx. -/
def Overview.getPeriodLabel (selectedPeriod : TimePeriod)
    (currentYear currentMonth customYear customMonth : ℤ) : String :=
  let range := Overview.getDateRange selectedPeriod currentYear currentMonth customYear customMonth
  match selectedPeriod with
  | .current_month => monthName (range.startMonth - 1) ++ " " ++ toString range.startYear
  | .last_month => monthName (range.startMonth - 1) ++ " " ++ toString range.startYear
  | .qtd =>
    "Q" ++ toString (floorDiv3 (range.startMonth - 1) + 1) ++ " " ++ toString range.startYear ++
      " (" ++ monthName (range.startMonth - 1) ++ " - " ++ monthName (range.endMonth - 1) ++ ")"
  | .ytd => "YTD " ++ toString range.startYear ++ " (Jan - " ++ monthName (range.endMonth - 1) ++ ")"
  | .custom => monthName (customMonth - 1) ++ " " ++ toString customYear

/-- Embeds getPeriodLabel of src/pages/Rankings.tsx: no month-span
suffixes, and the default branch (reached for custom) returns the empty
string. -/
def Rankings.getPeriodLabel (selectedPeriod : TimePeriod)
    (currentYear currentMonth : ℤ) : String :=
  let range := Rankings.getDateRange selectedPeriod currentYear currentMonth
  match selectedPeriod with
  | .current_month => monthName (range.startMonth - 1) ++ " " ++ toString range.startYear
  | .last_month => monthName (range.startMonth - 1) ++ " " ++ toString range.startYear
  | .qtd => "Q" ++ toString (floorDiv3 (range.startMonth - 1) + 1) ++ " " ++ toString range.startYear
  | .ytd => "YTD " ++ toString range.startYear
  | .custom => ""

/-- C5: for any current date with a valid month, the qtd range starts at
month (ceil(m/3) - 1) * 3 + 1, which is always one of 1, 4, 7 or 10, ends
at the current month (which is at least the start month), and start and
end years both equal the current year; both pages compute the same qtd
range. -/
theorem qtd_range_spec (y m cy cm : ℤ) (h1 : 1 ≤ m) (h2 : m ≤ 12) :
    Overview.getDateRange .qtd y m cy cm = Rankings.getDateRange .qtd y m ∧
    ((Overview.getDateRange .qtd y m cy cm).startMonth = 1 ∨
      (Overview.getDateRange .qtd y m cy cm).startMonth = 4 ∨
      (Overview.getDateRange .qtd y m cy cm).startMonth = 7 ∨
      (Overview.getDateRange .qtd y m cy cm).startMonth = 10) ∧
    (Overview.getDateRange .qtd y m cy cm).startMonth = (ceilDiv3 m - 1) * 3 + 1 ∧
    (Overview.getDateRange .qtd y m cy cm).endMonth = m ∧
    (Overview.getDateRange .qtd y m cy cm).startMonth ≤
      (Overview.getDateRange .qtd y m cy cm).endMonth ∧
    (Overview.getDateRange .qtd y m cy cm).startYear = y ∧
    (Overview.getDateRange .qtd y m cy cm).endYear = y := by
  refine ⟨rfl, ?_, rfl, rfl, ?_, rfl, rfl⟩ <;>
    · show _
      simp only [Overview.getDateRange]
      interval_cases m <;> decide

/-- Witness for C5: the qtd range at current date May 2026. -/
theorem qtd_range_spec_witness :
    (1 : ℤ) ≤ 5 ∧ (5 : ℤ) ≤ 12 ∧
      ((Overview.getDateRange .qtd 2026 5 2026 5).startMonth = 1 ∨
        (Overview.getDateRange .qtd 2026 5 2026 5).startMonth = 4 ∨
        (Overview.getDateRange .qtd 2026 5 2026 5).startMonth = 7 ∨
        (Overview.getDateRange .qtd 2026 5 2026 5).startMonth = 10) ∧
      (Overview.getDateRange .qtd 2026 5 2026 5).endMonth = 5 :=
  ⟨by decide, by decide, (qtd_range_spec 2026 5 2026 5 (by decide) (by decide)).2.1,
    (qtd_range_spec 2026 5 2026 5 (by decide) (by decide)).2.2.2.1⟩

/-- C6: for every period kind and valid current month, the range returned
by getDateRange in Overview.tsx is lexicographically ordered: either the
start year is strictly smaller, or the years agree and the start month is
at most the end month; and at current month 1, last_month rolls the year
over to month 12 of the previous year with start = end. -/
theorem getDateRange_lex_le (p : TimePeriod) (y m cy cm : ℤ)
    (h1 : 1 ≤ m) (h2 : m ≤ 12) :
    ((Overview.getDateRange p y m cy cm).startYear <
        (Overview.getDateRange p y m cy cm).endYear ∨
      ((Overview.getDateRange p y m cy cm).startYear =
          (Overview.getDateRange p y m cy cm).endYear ∧
        (Overview.getDateRange p y m cy cm).startMonth ≤
          (Overview.getDateRange p y m cy cm).endMonth)) ∧
    (p = .last_month → m = 1 →
      Overview.getDateRange p y m cy cm =
        { startYear := y - 1, startMonth := 12, endYear := y - 1, endMonth := 12 }) := by
  constructor
  · cases p
    · exact Or.inr ⟨rfl, le_refl _⟩
    · by_cases hm : m = 1 <;> simp [Overview.getDateRange, hm]
    · refine Or.inr ⟨rfl, ?_⟩
      simp only [Overview.getDateRange]
      interval_cases m <;> decide
    · exact Or.inr ⟨rfl, h1⟩
    · exact Or.inr ⟨rfl, le_refl _⟩
  · rintro rfl rfl
    simp [Overview.getDateRange]

/-- Witness for C6: the last_month range at current month January 2026
rolls over to December 2025 and is lexicographically ordered. -/
theorem getDateRange_lex_le_witness :
    (1 : ℤ) ≤ 1 ∧ (1 : ℤ) ≤ 12 ∧
      ((Overview.getDateRange .last_month 2026 1 2026 1).startYear <
          (Overview.getDateRange .last_month 2026 1 2026 1).endYear ∨
        ((Overview.getDateRange .last_month 2026 1 2026 1).startYear =
            (Overview.getDateRange .last_month 2026 1 2026 1).endYear ∧
          (Overview.getDateRange .last_month 2026 1 2026 1).startMonth ≤
            (Overview.getDateRange .last_month 2026 1 2026 1).endMonth)) ∧
      Overview.getDateRange .last_month 2026 1 2026 1 =
        { startYear := 2025, startMonth := 12, endYear := 2025, endMonth := 12 } :=
  ⟨by decide, by decide, (getDateRange_lex_le .last_month 2026 1 2026 1 (by decide) (by decide)).1,
    (getDateRange_lex_le .last_month 2026 1 2026 1 (by decide) (by decide)).2 rfl rfl⟩

/-- Counterexample for C7: on the Rankings page, with current date April
2026, the qtd period label is the short form without the month span, so
it is not the label the claim states. -/
theorem rankings_qtd_label_counterexample :
    Rankings.getPeriodLabel .qtd 2026 4 = "Q2 2026" ∧
      Rankings.getPeriodLabel .qtd 2026 4 ≠ "Q2 2026 (Apr - Apr)" := by
  constructor <;> decide

/-- C7 as amended: with current date April of any year, the qtd range has
start month 4 and end month 4 in both pages; the Overview page label is
exactly Q2 <year> (Apr - Apr), while the Rankings page label is the short
form Q2 <year>. -/
theorem qtd_april_range_and_label (y cy cm : ℤ) :
    (Overview.getDateRange .qtd y 4 cy cm).startMonth = 4 ∧
    (Overview.getDateRange .qtd y 4 cy cm).endMonth = 4 ∧
    (Rankings.getDateRange .qtd y 4).startMonth = 4 ∧
    (Rankings.getDateRange .qtd y 4).endMonth = 4 ∧
    Overview.getPeriodLabel .qtd y 4 cy cm = "Q2 " ++ toString y ++ " (Apr - Apr)" ∧
    Rankings.getPeriodLabel .qtd y 4 = "Q2 " ++ toString y := by
  refine ⟨rfl, rfl, rfl, rfl, ?_, ?_⟩ <;>
    simp only [Overview.getPeriodLabel, Rankings.getPeriodLabel, Overview.getDateRange,
      Rankings.getDateRange, String.append_assoc] <;> rfl

/-- Counterexample for C8: for the custom period the two resolvers
disagree — with current date October 2026 and chosen custom month March
2025, Overview returns the chosen month while Rankings falls through to
its default branch and returns the current month. -/
theorem getDateRange_custom_counterexample :
    Overview.getDateRange .custom 2026 10 2025 3 =
        { startYear := 2025, startMonth := 3, endYear := 2025, endMonth := 3 } ∧
      Rankings.getDateRange .custom 2026 10 =
        { startYear := 2026, startMonth := 10, endYear := 2026, endMonth := 10 } ∧
      Overview.getDateRange .custom 2026 10 2025 3 ≠ Rankings.getDateRange .custom 2026 10 := by
  refine ⟨rfl, rfl, ?_⟩
  decide

/-- C8 as amended: the two page-local period resolvers return equal
ranges for every period kind other than custom, for every current date;
for custom they differ whenever the chosen month and year differ from the
current ones, because the Rankings switch has no custom case. -/
theorem getDateRange_overview_eq_rankings (p : TimePeriod) (y m cy cm : ℤ)
    (h : p ≠ .custom) :
    Overview.getDateRange p y m cy cm = Rankings.getDateRange p y m := by
  cases p
  · rfl
  · rfl
  · rfl
  · rfl
  · exact absurd rfl h

/-- Witness for C8 as amended: both resolvers agree on the qtd range at
current date October 2026. -/
theorem getDateRange_overview_eq_rankings_witness :
    TimePeriod.qtd ≠ TimePeriod.custom ∧
      Overview.getDateRange .qtd 2026 10 2024 2 = Rankings.getDateRange .qtd 2026 10 :=
  ⟨by decide, getDateRange_overview_eq_rankings .qtd 2026 10 2024 2 (by decide)⟩

/-- Embeds the MetricType union of Rankings.tsx. -/
inductive MetricType where
  | revenue
  | lab_expense_percent
  | personnel_expense_percent
  | total_weekly_units
  | backlog_in_lab
  | backlog_in_clinic
  | data_completeness
deriving Repr, DecidableEq

/-- One element of the raw backend data array passed to sortAndRankData:
the same fields as RankingMetric but with no rank assigned yet. -/
structure RankingInput where
  office_id : ℤ
  office_name : String
  address : String
  dfo : String
  value : Option ℚ
deriving Repr, DecidableEq

/-- Embeds the RankingMetric interface of Rankings.tsx. The rank is a JS
number always assigned as index + 1, modelled as ℕ. -/
structure RankingMetric where
  office_id : ℤ
  office_name : String
  address : String
  dfo : String
  value : Option ℚ
  rank : ℕ
deriving Repr, DecidableEq

/-- Models the JS expression (a.value || Infinity) of the lower-is-better
comparator branch: null and the number 0 are both falsy, so both are
replaced by Infinity. -/
def orInfinity (x : Option ℚ) : WithTop ℚ :=
  match x with
  | none => ⊤
  | some v => if v = 0 then ⊤ else (v : WithTop ℚ)

/-- Models the JS expression (b.value || -Infinity) of the
higher-is-better comparator branch. -/
def orNegInfinity (x : Option ℚ) : WithBot ℚ :=
  match x with
  | none => ⊥
  | some v => if v = 0 then ⊥ else (v : WithBot ℚ)

/-- The ordering induced by the numeric comparator of sortAndRankData: a
may precede b exactly when the comparator result is at most zero. The NaN
result of Infinity - Infinity is treated by the sort as zero, i.e. a tie,
which this ordering also yields. Array.prototype.sort is stable (ES2019),
so the sort below is a stable sort with respect to this ordering. -/
def comparatorLe (lowerIsBetter : Bool) (a b : RankingInput) : Prop :=
  match lowerIsBetter with
  | true => orInfinity a.value ≤ orInfinity b.value
  | false => orNegInfinity b.value ≤ orNegInfinity a.value

instance comparatorLe.instDecidable (lowerIsBetter : Bool) :
    DecidableRel (comparatorLe lowerIsBetter) := fun a b => by
  cases lowerIsBetter <;> simp only [comparatorLe] <;> infer_instance

/-- Embeds sortAndRankData of src/pages/Rankings.tsx: filter out entries
with a null value, stable-sort by the direction-dependent comparator
(embedded as a stable insertion sort over comparatorLe), and assign dense
ranks index + 1; map((item, index) => ...) becomes enum.map. -/
def sortAndRankData (selectedMetric : MetricType) (data : List RankingInput) :
    List RankingMetric :=
  let lowerIsBetter :=
    [MetricType.lab_expense_percent, MetricType.personnel_expense_percent,
      MetricType.backlog_in_lab, MetricType.backlog_in_clinic].contains selectedMetric
  let withData := data.filter (fun item => item.value != none)
  let sorted := List.insertionSort (comparatorLe lowerIsBetter) withData
  let ranked := sorted.enum.map (fun p =>
    { office_id := p.2.office_id, office_name := p.2.office_name, address := p.2.address
      dfo := p.2.dfo, value := p.2.value, rank := p.1 + 1 : RankingMetric })
  ranked

/-- C3: the ranker emits exactly one entry per input entry with a present
value — so the output length is the count of present values, strictly
below the input length when some value is missing — and the ranks read in
order are exactly 1, 2, ..., N. -/
theorem sortAndRankData_length_and_ranks (metric : MetricType) (data : List RankingInput) :
    (sortAndRankData metric data).length = data.countP (fun item => item.value != none) ∧
    ((∃ item ∈ data, item.value = none) →
      (sortAndRankData metric data).length < data.length) ∧
    (sortAndRankData metric data).map (fun r => r.rank) =
      (List.range (sortAndRankData metric data).length).map (fun i => i + 1) := by
  have hlen : (sortAndRankData metric data).length =
      data.countP (fun item => item.value != none) := by
    simp only [sortAndRankData, List.length_map, List.enum_length]
    rw [(List.perm_insertionSort _ _).length_eq]
    exact (List.countP_eq_length_filter _ _).symm
  refine ⟨hlen, ?_, ?_⟩
  · intro hmiss
    rw [hlen]
    refine lt_of_le_of_ne (List.countP_le_length _) ?_
    rw [ne_eq, List.countP_eq_length]
    intro hall
    obtain ⟨item, hmem, hnone⟩ := hmiss
    have := hall item hmem
    simp [hnone] at this
  · simp only [sortAndRankData, List.map_map]
    rw [show ((fun r : RankingMetric => r.rank) ∘ fun p : ℕ × RankingInput =>
        ({ office_id := p.2.office_id, office_name := p.2.office_name, address := p.2.address
           dfo := p.2.dfo, value := p.2.value, rank := p.1 + 1 : RankingMetric })) =
        ((fun i => i + 1) ∘ Prod.fst) from rfl]
    rw [← List.map_map, List.enum_map_fst, List.length_map, List.enum_length]

/-- Input collection of spec scenario 3: backlog values A 120, B absent,
C 40, D 40 in that order. -/
def scenarioThreeData : List RankingInput :=
  [{ office_id := 1, office_name := "A", address := "", dfo := "", value := some 120 },
    { office_id := 2, office_name := "B", address := "", dfo := "", value := none },
    { office_id := 3, office_name := "C", address := "", dfo := "", value := some 40 },
    { office_id := 4, office_name := "D", address := "", dfo := "", value := some 40 }]

/-- Witness for C3: the scenario-3 data has a missing value, so the
ranked output is strictly shorter (3 of 4), with ranks exactly 1, 2, 3. -/
theorem sortAndRankData_length_and_ranks_witness :
    (∃ item ∈ scenarioThreeData, item.value = none) ∧
      (sortAndRankData .backlog_in_lab scenarioThreeData).length <
        scenarioThreeData.length ∧
      (sortAndRankData .backlog_in_lab scenarioThreeData).map (fun r => r.rank) =
        (List.range (sortAndRankData .backlog_in_lab scenarioThreeData).length).map
          (fun i => i + 1) :=
  ⟨by decide,
    (sortAndRankData_length_and_ranks .backlog_in_lab scenarioThreeData).2.1 (by decide),
    (sortAndRankData_length_and_ranks .backlog_in_lab scenarioThreeData).2.2⟩

/-- Evaluation for C4 at the failing input: for the lower-is-better
metric backlog_in_lab over values 0 and 5, the comparator guard
(a.value || Infinity) treats the present value 0 as falsy and replaces it
by Infinity, so the zero-backlog office sorts last — the output values
read 5, 0, not ascending order. The second conjunct checks the claim's
own scenario-3 example, which does hold: C, D, A with ranks 1, 2, 3, B
excluded, ties in stable input order. -/
theorem sortAndRankData_zero_value_eval :
    (sortAndRankData .backlog_in_lab
          [{ office_id := 1, office_name := "A", address := "", dfo := "", value := some 0 },
            { office_id := 2, office_name := "B", address := "", dfo := "", value := some 5 }]).map
        (fun r => (r.office_id, r.value, r.rank)) =
      [(2, some 5, 1), (1, some 0, 2)] ∧
    (sortAndRankData .backlog_in_lab scenarioThreeData).map
        (fun r => (r.office_id, r.value, r.rank)) =
      [(3, some 40, 1), (4, some 40, 2), (1, some 120, 3)] := by
  constructor <;> decide

/-- Embeds the ComplianceData interface of the compliance page
(src/unnamed/part_000): per-office weekly submission statistics as
delivered by the get_compliance_data backend command. -/
structure ComplianceData where
  office_id : ℤ
  office_name : String
  dfo : String
  total_weeks : ℕ
  submitted_weeks : ℕ
  compliance_rate : ℚ
  current_streak : ℕ
  longest_streak : ℕ
  recent_submissions : List ℕ
deriving Repr, DecidableEq

/-- Modelled from the spec: the streak computation itself runs in the
Rust backend behind the get_compliance_data command and is not under
src/; §4.6 defines current_streak as the run of consecutive true values
ending at the last element of the oldest-to-newest history — zero when
the last week is false or the history is empty. -/
def currentStreak (history : List Bool) : ℕ :=
  (history.reverse.takeWhile (fun b => b)).length

/-- Modelled from the spec: one step of the longest-streak scan, carrying
the run ending at the current position and the best run seen so far. -/
def streakStep (s : ℕ × ℕ) (b : Bool) : ℕ × ℕ :=
  if b then (s.1 + 1, max s.2 (s.1 + 1)) else (0, s.2)

/-- Modelled from the spec: §4.6 longest_streak is the maximum run length
of consecutive true values anywhere in the full sequence, computed by a
single left-to-right scan. -/
def longestStreak (history : List Bool) : ℕ :=
  (history.foldl streakStep (0, 0)).2

/-- Modelled from the spec: §4.6 compliance_rate is
submitted / total · 100, and zero (never NaN) for an empty history. -/
def complianceRate (history : List Bool) : ℚ :=
  if history.length = 0 then 0
  else (history.countP (fun b => b) : ℚ) / (history.length : ℚ) * 100

/-- Modelled from the spec: assembles the ComplianceData record for one
office from its chronological weekly submission history, with the
last-10-weeks display window rendered as ones and zeroes. -/
def mkComplianceData (officeId : ℤ) (officeName dfoName : String)
    (history : List Bool) : ComplianceData :=
  { office_id := officeId, office_name := officeName, dfo := dfoName
    total_weeks := history.length
    submitted_weeks := history.countP (fun b => b)
    compliance_rate := complianceRate history
    current_streak := currentStreak history
    longest_streak := longestStreak history
    recent_submissions := ((history.reverse.take 10).reverse).map (fun b => if b then 1 else 0) }

/-- The streak scan preserves the invariant that the run ending here is
at most the best run so far. -/
theorem foldl_streakStep_fst_le_snd (l : List Bool) (s : ℕ × ℕ) (h : s.1 ≤ s.2) :
    (l.foldl streakStep s).1 ≤ (l.foldl streakStep s).2 := by
  induction l generalizing s with
  | nil => exact h
  | cons b t ih =>
    simp only [List.foldl_cons]
    apply ih
    cases b
    · simp [streakStep, h]
    · simp [streakStep]

/-- The first component of the streak scan is the length of the run of
true values ending at the last element. -/
theorem foldl_streakStep_fst_eq_currentStreak (l : List Bool) :
    (l.foldl streakStep (0, 0)).1 = currentStreak l := by
  induction l using List.reverseRecOn with
  | nil => rfl
  | append_singleton t b ih =>
    rw [List.foldl_append]
    cases b
    · simp [streakStep, currentStreak]
    · have h1 : (List.foldl streakStep (t.foldl streakStep (0, 0)) [true]).1 =
          (t.foldl streakStep (0, 0)).1 + 1 := rfl
      rw [h1, ih]
      simp [currentStreak, List.takeWhile_cons]

/-- C9: for every office identity and chronological weekly history, the
ComplianceData record satisfies current_streak ≤ longest_streak: the run
ending at the most recent week never exceeds the best run anywhere. -/
theorem complianceData_current_le_longest (officeId : ℤ) (officeName dfoName : String)
    (history : List Bool) :
    (mkComplianceData officeId officeName dfoName history).current_streak ≤
      (mkComplianceData officeId officeName dfoName history).longest_streak := by
  show currentStreak history ≤ longestStreak history
  rw [← foldl_streakStep_fst_eq_currentStreak]
  exact foldl_streakStep_fst_le_snd history (0, 0) (le_refl 0)

end LabPulse
